import Mathlib

/-! # The admin web interface of the ESP32 audio player (`main/webui.c`)

A shallow embedding of the request handlers of `main/webui.c` and the proofs of
their contract.

* C buffers are lists of byte values (`List Nat`); a C string stored in a buffer
  is read up to its first NUL byte (`cstr`), and the end of a list reads as NUL.
* The handlers are functions on an explicit `State`: the global `stream_url`
  buffer, the response under construction and the effects performed so far.
* The calls into ESP-IDF and FreeRTOS (`httpd_*`, `vTaskDelay`, `esp_restart`)
  are not part of `webui.c`; they are embedded after their documented behaviour,
  and what the transport delivers is a field of the request.
* A write outside a buffer is undefined behaviour in C; a handler that would
  perform one yields `none`.
-/

namespace WebUI

/-! ## Bytes, buffers and C strings -/

/-- The bytes of an ASCII string literal. -/
def bytes (s : String) : List Nat := s.toList.map Char.toNat

/-- The macro `MIN(a, b)`: `((a) < (b) ? (a) : (b))`. -/
def MIN (a b : Nat) : Nat := if a < b then a else b

/-- The macro `MAX_URL_LENGTH`. -/
def MAX_URL_LENGTH : Nat := 256

/-- A buffer of `n` zero bytes, as left by the initialiser `= {0}`. -/
def zeros (n : Nat) : List Nat := List.replicate n 0

/-- The C string stored at the start of a buffer: the bytes before the first NUL. -/
def cstr (buf : List Nat) : List Nat := buf.takeWhile (fun c => c != 0)

/-- Writing `data` at the start of `buf`; the buffer keeps its size. -/
def store (buf data : List Nat) : List Nat :=
  (data ++ buf.drop data.length).take buf.length

/-- The library function `strcmp` on two buffers holding C strings. -/
def strcmp : List Nat → List Nat → Int
  | [], [] => 0
  | [], b :: _ => - (b : Int)
  | a :: _, [] => (a : Int)
  | a :: as, b :: bs =>
    if a = b then (if a = 0 then 0 else strcmp as bs) else (a : Int) - (b : Int)

/-- The library function `strstr` on C strings (given by their bytes): the offset
of the first occurrence of `needle` in `hay`, `none` for a NULL result. -/
def strstr : List Nat → List Nat → Option Nat
  | [], needle => if needle.isEmpty then some 0 else none
  | h :: t, needle =>
    if needle.isPrefixOf (h :: t) then some 0
    else (strstr t needle).map (fun i => i + 1)

/-- The library call `snprintf(str, size, "%s", arg)`: at most `size - 1` bytes of
the C string `arg` are written to `str`, followed by a NUL. -/
def snprintf_s (str : List Nat) (size : Nat) (arg : List Nat) : List Nat :=
  if size = 0 then str else store str (arg.take (size - 1) ++ [0])

/-! ## Requests, responses and effects -/

/-- The error codes of `esp_err_t` that occur here. -/
inductive esp_err_t
  | ESP_OK
  | ESP_FAIL
  | ESP_ERR_NOT_FOUND
  | ESP_ERR_HTTPD_RESULT_TRUNC
deriving DecidableEq, Repr

/-- The error codes of `httpd_err_code_t` that occur here. -/
inductive httpd_err_code_t
  | HTTPD_500_INTERNAL_SERVER_ERROR
  | HTTPD_400_BAD_REQUEST
  | HTTPD_401_UNAUTHORIZED
deriving DecidableEq, Repr

/-- The status code that `httpd_resp_send_err` puts on the response. -/
def httpd_err_code_t.status : httpd_err_code_t → Nat
  | .HTTPD_500_INTERNAL_SERVER_ERROR => 500
  | .HTTPD_400_BAD_REQUEST => 400
  | .HTTPD_401_UNAUTHORIZED => 401

/-- A response as it is handed to the transport. -/
structure Response where
  status : Nat
  content_type : String
  headers : List (String × String)
  body : List Nat
deriving DecidableEq, Repr

/-- A FreeRTOS tick count, kept as the milliseconds it was converted from (the
tick rate is configuration of the kernel, not of `webui.c`). -/
structure TickType_t where
  ms : Nat
deriving DecidableEq, Repr

/-- The FreeRTOS macro `pdMS_TO_TICKS`. -/
def pdMS_TO_TICKS (ms : Nat) : TickType_t := ⟨ms⟩

/-- The two log levels used: `ESP_LOGE` and `ESP_LOGI`. -/
inductive esp_log_level
  | error
  | info
deriving DecidableEq, Repr

/-- The effects a handler has on the outside world, in the order performed. -/
inductive Effect
  | log (level : esp_log_level) (tag : String) (fmt : String) (args : List (List Nat))
  | send (r : Response)
  | vTaskDelay (ticks : TickType_t)
  | esp_restart
deriving DecidableEq, Repr

/-- The request `httpd_req_t` as the handlers see it: the declared content
length, the header lookup of the server, and what the transport does when
`httpd_req_recv` asks it for `n` bytes (the return value and the bytes
delivered; nothing is assumed of it here). -/
structure httpd_req_t where
  content_len : Nat
  hdr_value : String → Option (List Nat)
  recv : Nat → Int × List Nat

/-- The mutable state a handler acts on: the global `stream_url` buffer, the
status, content type and headers of the response under construction, and the
effects performed so far. -/
structure State where
  stream_url : List Nat
  resp_status : Nat
  resp_type : String
  resp_hdrs : List (String × String)
  effects : List Effect
deriving DecidableEq, Repr

/-- How a handler ends: it returns an `esp_err_t`, or it has called `esp_restart`,
which does not return. -/
inductive Ret
  | returned (e : esp_err_t)
  | restarted
deriving DecidableEq, Repr

/-- A URI handler `esp_err_t (*)(httpd_req_t *)`; `none` is a write outside a
buffer. -/
abbrev Handler := httpd_req_t → State → Option (State × Ret)

/-! ## The ESP-IDF calls -/

/-- The macros `ESP_LOGE` and `ESP_LOGI`. -/
def ESP_LOG (s : State) (level : esp_log_level) (tag fmt : String)
    (args : List (List Nat)) : State :=
  { s with effects := s.effects ++ [Effect.log level tag fmt args] }

/-- The call `httpd_resp_set_status`. -/
def httpd_resp_set_status (s : State) (status : Nat) : State :=
  { s with resp_status := status }

/-- The call `httpd_resp_set_type`. -/
def httpd_resp_set_type (s : State) (type : String) : State :=
  { s with resp_type := type }

/-- The call `httpd_resp_set_hdr`. -/
def httpd_resp_set_hdr (s : State) (field value : String) : State :=
  { s with resp_hdrs := s.resp_hdrs ++ [(field, value)] }

/-- The call `httpd_resp_send`: the response goes out with the status, content
type and headers set so far. -/
def httpd_resp_send (s : State) (body : List Nat) : State :=
  { s with effects :=
      s.effects ++ [Effect.send ⟨s.resp_status, s.resp_type, s.resp_hdrs, body⟩] }

/-- The call `httpd_resp_sendstr`. -/
def httpd_resp_sendstr (s : State) (str : String) : State :=
  httpd_resp_send s (bytes str)

/-- The call `httpd_resp_send_err`: sets the status of the error code and the
content type `text/html`, then sends the message. -/
def httpd_resp_send_err (s : State) (error : httpd_err_code_t) (usr_msg : String) :
    State :=
  let s := httpd_resp_set_status s error.status
  let s := httpd_resp_set_type s "text/html"
  httpd_resp_send s (bytes usr_msg)

/-- The call `httpd_req_get_hdr_value_str`: `ESP_OK` and the value as a C string in
`val` when the field is present and fits, `ESP_ERR_NOT_FOUND` when it is absent,
`ESP_ERR_HTTPD_RESULT_TRUNC` and a cut value when it does not fit. -/
def httpd_req_get_hdr_value_str (req : httpd_req_t) (field : String)
    (val : List Nat) (val_size : Nat) : esp_err_t × List Nat :=
  match req.hdr_value field with
  | none => (.ESP_ERR_NOT_FOUND, val)
  | some v =>
    if v.length < val_size then (.ESP_OK, store val (v ++ [0]))
    else (.ESP_ERR_HTTPD_RESULT_TRUNC, store val (v.take (val_size - 1) ++ [0]))

/-- The call `httpd_req_recv`: the return value of the transport, and the buffer
with the received bytes written at its start. -/
def httpd_req_recv (req : httpd_req_t) (buf : List Nat) (buf_len : Nat) :
    Int × List Nat :=
  let r := req.recv buf_len
  (r.1, store buf (r.2.take r.1.toNat))

/-- The call `vTaskDelay`. -/
def vTaskDelay (s : State) (ticks : TickType_t) : State :=
  { s with effects := s.effects ++ [Effect.vTaskDelay ticks] }

/-- The call `esp_restart`. -/
def esp_restart (s : State) : State :=
  { s with effects := s.effects ++ [Effect.esp_restart] }

/-! ## The code of `webui.c` -/

/-- The log tag `TAG`. -/
def TAG : String := "WEB_UI"

/-- The initialiser of the global `char stream_url[MAX_URL_LENGTH]`. -/
def stream_url_init : List Nat :=
  store (zeros MAX_URL_LENGTH) (bytes "http://192.168.9.184:8001")

/-- The constant `admin_panel_html`. -/
def admin_panel_html : String :=
  "<!DOCTYPE html>\n" ++
  "<html>\n" ++
  "<head>\n" ++
  "    <title>ESP32 Admin Panel</title>\n" ++
  "</head>\n" ++
  "<body>\n" ++
  "    <h1>ESP32 Admin Panel</h1>\n" ++
  "    <form action='/set_url' method='post'>\n" ++
  "        <label for='url'>Stream URL:</label><br>\n" ++
  "        <input type='text' id='url' name='url' value='http://192.168.9.184:8001'><br><br>\n" ++
  "        <input type='submit' value='Update URL'>\n" ++
  "    </form>\n" ++
  "    <br><br>\n" ++
  "    <form action='/restart' method='get'>\n" ++
  "        <input type='submit' value='Restart ESP32'>\n" ++
  "    </form>\n" ++
  "</body>\n" ++
  "</html>"

/-- The handler `admin_panel_handler`. -/
def admin_panel_handler : Handler := fun _req s =>
  let s := httpd_resp_set_type s "text/html"
  let s := httpd_resp_send s (bytes admin_panel_html)
  some (s, .returned .ESP_OK)

/-- The handler `set_stream_url_handler`. -/
def set_stream_url_handler : Handler := fun req s =>
  let content := zeros MAX_URL_LENGTH
  let r := httpd_req_recv req content (MIN req.content_len (MAX_URL_LENGTH - 1))
  let ret := r.1
  let content := r.2
  if ret ≤ 0 then
    let s := ESP_LOG s .error TAG "Failed to receive URL" []
    let s := httpd_resp_send_err s .HTTPD_500_INTERNAL_SERVER_ERROR "Failed to receive URL"
    some (s, .returned .ESP_FAIL)
  else if ret.toNat < content.length then
    let content := content.set ret.toNat 0
    let s := ESP_LOG s .info TAG "Received content: %s" [cstr content]
    match strstr (cstr content) (bytes "url=") with
    | some off =>
      let url_start := off + 4
      let url := snprintf_s s.stream_url MAX_URL_LENGTH (cstr (content.drop url_start))
      let s := { s with stream_url := url }
      let s := ESP_LOG s .info TAG "New stream URL set: %s" [cstr s.stream_url]
      let s := httpd_resp_sendstr s "Stream URL updated successfully. Restarting ESP32..."
      let s := vTaskDelay s (pdMS_TO_TICKS 100)
      let s := esp_restart s
      some (s, .restarted)
    | none =>
      let s := ESP_LOG s .error TAG "Invalid URL format" []
      let s := httpd_resp_send_err s .HTTPD_400_BAD_REQUEST "Invalid URL format"
      some (s, .returned .ESP_FAIL)
  else none

/-- The handler `restart_handler`. -/
def restart_handler : Handler := fun _req s =>
  let s := ESP_LOG s .info TAG "Restarting ESP32..." []
  let s := httpd_resp_sendstr s "ESP32 is restarting..."
  let s := vTaskDelay s (pdMS_TO_TICKS 100)
  let s := esp_restart s
  some (s, .restarted)

/-- The local constant `expected_auth` of `basic_auth`. -/
def expected_auth : List Nat := bytes "Basic YWRtaW46YWRtaW4="

/-- The function `basic_auth`. -/
def basic_auth (req : httpd_req_t) (s : State) : State × esp_err_t :=
  let auth_header := zeros 128
  let r := httpd_req_get_hdr_value_str req "Authorization" auth_header 128
  let auth_header := r.2
  if r.1 ≠ .ESP_OK then
    let s := httpd_resp_set_hdr s "WWW-Authenticate" "Basic realm=\"ESP32 Admin\""
    let s := httpd_resp_send_err s .HTTPD_401_UNAUTHORIZED "Unauthorized"
    (s, .ESP_FAIL)
  else if strcmp auth_header expected_auth ≠ 0 then
    let s := httpd_resp_set_hdr s "WWW-Authenticate" "Basic realm=\"ESP32 Admin\""
    let s := httpd_resp_send_err s .HTTPD_401_UNAUTHORIZED "Unauthorized"
    (s, .ESP_FAIL)
  else (s, .ESP_OK)

/-- The function `authenticated_handler`. -/
def authenticated_handler (req : httpd_req_t) (handler : Handler) (s : State) :
    Option (State × Ret) :=
  let r := basic_auth req s
  if r.2 = .ESP_OK then handler req r.1 else some (r.1, .returned .ESP_FAIL)

/-- The handler `admin_panel_authenticated_handler`. -/
def admin_panel_authenticated_handler : Handler := fun req s =>
  authenticated_handler req admin_panel_handler s

/-- The handler `set_stream_url_authenticated_handler`. -/
def set_stream_url_authenticated_handler : Handler := fun req s =>
  authenticated_handler req set_stream_url_handler s

/-- The handler `restart_authenticated_handler`. -/
def restart_authenticated_handler : Handler := fun req s =>
  authenticated_handler req restart_handler s

/-- The three URIs registered by `start_webserver`. -/
inductive Route
  | admin_panel
  | set_url
  | restart
deriving DecidableEq, Repr

/-- The `.uri` of a registered route. -/
def Route.uri : Route → String
  | .admin_panel => "/"
  | .set_url => "/set_url"
  | .restart => "/restart"

/-- The `.method` of a registered route. -/
def Route.method : Route → String
  | .admin_panel => "GET"
  | .set_url => "POST"
  | .restart => "GET"

/-- The `.handler` of a registered route. -/
def Route.handler : Route → Handler
  | .admin_panel => admin_panel_authenticated_handler
  | .set_url => set_stream_url_authenticated_handler
  | .restart => restart_authenticated_handler

/-- The state in which the server hands a request to its handler: status
`200 OK`, content type `text/html`, no header set, nothing done yet. -/
def fresh (stream_url : List Nat) : State :=
  { stream_url := stream_url, resp_status := 200, resp_type := "text/html",
    resp_hdrs := [], effects := [] }

/-! ## Vocabulary of the statements -/

/-- The responses sent among a list of effects, in order. -/
def responses : List Effect → List Response
  | [] => []
  | Effect.send r :: es => r :: responses es
  | _ :: es => responses es

/-- The request carries the expected credential in its `Authorization` header. -/
def Authorized (req : httpd_req_t) : Prop :=
  req.hdr_value "Authorization" = some expected_auth

/-- The header values of the request are C strings: they hold no NUL byte. -/
def HeaderIsCString (req : httpd_req_t) : Prop :=
  ∀ v, req.hdr_value "Authorization" = some v → 0 ∉ v

/-- The call `httpd_req_recv` of `set_stream_url_handler` returns at most the
length it was asked for. -/
def RecvBounded (req : httpd_req_t) : Prop :=
  (req.recv (MIN req.content_len (MAX_URL_LENGTH - 1))).1
    ≤ (MIN req.content_len (MAX_URL_LENGTH - 1) : Nat)

/-- The bytes `set_stream_url_handler` receives: the first `ret` bytes delivered. -/
def received (req : httpd_req_t) : List Nat :=
  let r := req.recv (MIN req.content_len (MAX_URL_LENGTH - 1))
  r.2.take r.1.toNat

/-- The list `hay` is `pre`, then `needle`, then `rest`, and no occurrence of
`needle` in `hay` starts before this one. -/
def FirstOccurrence (needle hay pre rest : List Nat) : Prop :=
  hay = pre ++ needle ++ rest ∧
    ∀ p r, hay = p ++ needle ++ r → pre.length ≤ p.length

/-- The 64 digits of Base64 (RFC 4648, table 1). -/
def base64_alphabet : List Nat :=
  bytes "ABCDEFGHIJKLMNOPQRSTUVWXYZabcdefghijklmnopqrstuvwxyz0123456789+/"

/-- The Base64 digit of a 6-bit value. -/
def base64_digit (n : Nat) : Nat := base64_alphabet.getD n 0

/-- The standard Base64 encoding with padding (RFC 4648, section 4), to which the
comment at `expected_auth` refers; `61` is the pad character `=`. -/
def base64_encode : List Nat → List Nat
  | [] => []
  | [a] => [base64_digit (a / 4), base64_digit (a % 4 * 16), 61, 61]
  | [a, b] =>
    [base64_digit (a / 4), base64_digit (a % 4 * 16 + b / 16),
     base64_digit (b % 16 * 4), 61]
  | a :: b :: c :: rest =>
    base64_digit (a / 4) :: base64_digit (a % 4 * 16 + b / 16) ::
      base64_digit (b % 16 * 4 + c / 64) :: base64_digit (c % 64) ::
      base64_encode rest

/-- The values the global `stream_url` can take: its initialiser at boot, and
what a handler leaves behind when it has served a request on one of the routes
(a restart brings the initialiser back). -/
inductive Reachable : List Nat → Prop
  | boot : Reachable stream_url_init
  | request (u : List Nat) (route : Route) (req : httpd_req_t) (s : State) (r : Ret) :
      Reachable u → route.handler req (fresh u) = some (s, r) → Reachable s.stream_url

/-- A well-formed request for the examples: `auth` is its `Authorization` header,
`body` its body, the content length is the length of the body, and the transport
delivers the first `n` bytes of the body when asked for `n`. -/
def mkReq (auth : Option (List Nat)) (body : List Nat) : httpd_req_t :=
  { content_len := body.length,
    hdr_value := fun field => if field = "Authorization" then auth else none,
    recv := fun n => (((body.take n).length : Int), body.take n) }

/-! ## C strings -/

theorem cstr_cons_zero (l : List Nat) : cstr (0 :: l) = [] := by
  simp [cstr]

theorem cstr_cons_ne {a : Nat} (h : a ≠ 0) (l : List Nat) :
    cstr (a :: l) = a :: cstr l := by
  simp [cstr, h]

theorem cstr_of_nulFree {v : List Nat} (h : 0 ∉ v) : cstr v = v := by
  induction v with
  | nil => rfl
  | cons a t ih =>
    have ha : a ≠ 0 := fun e => h (by simp [e])
    have ht : 0 ∉ t := fun e => h (by simp [e])
    rw [cstr_cons_ne ha, ih ht]

theorem cstr_nulFree (l : List Nat) : 0 ∉ cstr l := by
  induction l with
  | nil => simp [cstr]
  | cons a t ih =>
    by_cases ha : a = 0
    · subst ha; simp [cstr_cons_zero]
    · rw [cstr_cons_ne ha]
      simp only [List.mem_cons, not_or]
      exact ⟨fun e => ha e.symm, ih⟩

theorem cstr_append_zero (v rest : List Nat) : cstr (v ++ 0 :: rest) = cstr v := by
  induction v with
  | nil => simp [cstr]
  | cons a t ih =>
    by_cases ha : a = 0
    · subst ha; simp [cstr_cons_zero]
    · rw [List.cons_append, cstr_cons_ne ha, cstr_cons_ne ha, ih]

theorem cstr_length_le (l : List Nat) : (cstr l).length ≤ l.length := by
  induction l with
  | nil => simp [cstr]
  | cons a t ih =>
    by_cases ha : a = 0
    · subst ha; simp [cstr_cons_zero]
    · rw [cstr_cons_ne ha]; simp only [List.length_cons]; omega

theorem cstr_drop (l : List Nat) (i : Nat) (h : i ≤ (cstr l).length) :
    cstr (l.drop i) = (cstr l).drop i := by
  induction l generalizing i with
  | nil => simp [cstr]
  | cons a t ih =>
    cases i with
    | zero => rfl
    | succ j =>
      by_cases ha : a = 0
      · subst ha; rw [cstr_cons_zero] at h; simp at h
      · rw [cstr_cons_ne ha] at h ⊢
        simp only [List.length_cons, Nat.add_le_add_iff_right] at h
        simp only [List.drop_succ_cons]
        exact ih j h

theorem strcmp_eq_zero_iff (a b : List Nat) : strcmp a b = 0 ↔ cstr a = cstr b := by
  induction a generalizing b with
  | nil =>
    cases b with
    | nil => simp [strcmp]
    | cons y ys =>
      by_cases hy : y = 0
      · subst hy; simp [strcmp, cstr]
      · simp [strcmp, cstr, hy]
  | cons x xs ih =>
    cases b with
    | nil =>
      by_cases hx : x = 0
      · subst hx; simp [strcmp, cstr]
      · simp [strcmp, cstr, hx]
    | cons y ys =>
      by_cases hxy : x = y
      · subst hxy
        by_cases hx : x = 0
        · subst hx; simp [strcmp, cstr]
        · rw [strcmp, if_pos rfl, if_neg hx, ih ys, cstr_cons_ne hx, cstr_cons_ne hx]
          simp
      · have hne : (x : Int) - (y : Int) ≠ 0 := by omega
        rw [strcmp, if_neg hxy]
        constructor
        · intro h; exact absurd h hne
        · intro h
          exfalso
          by_cases hx : x = 0
          · subst hx
            have hy : y ≠ 0 := fun e => hxy e.symm
            rw [cstr_cons_zero, cstr_cons_ne hy] at h
            simp at h
          · rw [cstr_cons_ne hx] at h
            by_cases hy : y = 0
            · subst hy; rw [cstr_cons_zero] at h; simp at h
            · rw [cstr_cons_ne hy] at h
              exact hxy (List.cons.inj h).1

/-- Writing a C string and its terminator into a buffer with room for both leaves
that C string in the buffer. -/
theorem cstr_store (buf v : List Nat) (h : v.length < buf.length) :
    cstr (store buf (v ++ [0])) = cstr v := by
  unfold store
  have h1 : (v ++ [0] ++ List.drop (v ++ [0]).length buf)
      = v ++ 0 :: List.drop (v ++ [0]).length buf := by simp
  rw [h1, List.take_append_eq_append_take]
  have h2 : List.take buf.length v = v := List.take_of_length_le (by omega)
  have h3 : buf.length - v.length = (buf.length - v.length - 1) + 1 := by omega
  rw [h2, h3, List.take_succ_cons, cstr_append_zero]

theorem store_length (buf data : List Nat) : (store buf data).length = buf.length := by
  unfold store
  simp only [List.length_take, List.length_append, List.length_drop]
  omega

/-! ## The credential check -/

theorem expected_auth_length : expected_auth.length = 22 := by decide

theorem expected_auth_nulFree : 0 ∉ expected_auth := by decide

theorem zeros_length (n : Nat) : (zeros n).length = n := by simp [zeros]

/-- The state after the two calls of a refusal in `basic_auth`. -/
theorem refusal_eq (s : State) :
    httpd_resp_send_err (httpd_resp_set_hdr s "WWW-Authenticate" "Basic realm=\"ESP32 Admin\"")
        .HTTPD_401_UNAUTHORIZED "Unauthorized"
      = { stream_url := s.stream_url, resp_status := 401, resp_type := "text/html",
          resp_hdrs := s.resp_hdrs ++ [("WWW-Authenticate", "Basic realm=\"ESP32 Admin\"")],
          effects := s.effects ++
            [Effect.send ⟨401, "text/html",
              s.resp_hdrs ++ [("WWW-Authenticate", "Basic realm=\"ESP32 Admin\"")],
              bytes "Unauthorized"⟩] } := by
  rfl

theorem basic_auth_authorized (req : httpd_req_t) (s : State) (h : Authorized req) :
    basic_auth req s = (s, .ESP_OK) := by
  unfold Authorized at h
  have hlen : expected_auth.length < (zeros 128).length := by
    rw [expected_auth_length, zeros_length]; omega
  have hcmp : strcmp (store (zeros 128) (expected_auth ++ [0])) expected_auth = 0 := by
    rw [strcmp_eq_zero_iff, cstr_store _ _ hlen]
  have hl : expected_auth.length < 128 := by rw [expected_auth_length]; omega
  simp [basic_auth, httpd_req_get_hdr_value_str, h, hl, hcmp]

theorem basic_auth_unauthorized (req : httpd_req_t) (s : State)
    (hc : HeaderIsCString req) (h : ¬ Authorized req) :
    basic_auth req s =
      (httpd_resp_send_err
        (httpd_resp_set_hdr s "WWW-Authenticate" "Basic realm=\"ESP32 Admin\"")
        .HTTPD_401_UNAUTHORIZED "Unauthorized", .ESP_FAIL) := by
  unfold Authorized at h
  unfold HeaderIsCString at hc
  cases hv : req.hdr_value "Authorization" with
  | none => simp [basic_auth, httpd_req_get_hdr_value_str, hv]
  | some v =>
    by_cases hl : v.length < 128
    · have hlen : v.length < (zeros 128).length := by rw [zeros_length]; exact hl
      have hne : v ≠ expected_auth := fun e => h (by rw [hv, e])
      have hcmp : strcmp (store (zeros 128) (v ++ [0])) expected_auth ≠ 0 := by
        rw [Ne, strcmp_eq_zero_iff, cstr_store _ _ hlen, cstr_of_nulFree (hc v hv),
          cstr_of_nulFree expected_auth_nulFree]
        exact hne
      simp [basic_auth, httpd_req_get_hdr_value_str, hv, hl, hcmp]
    · simp [basic_auth, httpd_req_get_hdr_value_str, hv, hl]

/-! ## Searching a C string -/

theorem strstr_some (hay needle : List Nat) (off : Nat)
    (h : strstr hay needle = some off) :
    FirstOccurrence needle hay (hay.take off) (hay.drop (off + needle.length)) := by
  induction hay generalizing off with
  | nil =>
    unfold strstr at h
    by_cases hn : needle.isEmpty = true
    · rw [if_pos hn] at h
      have hn' : needle = [] := by simpa using hn
      subst hn'
      refine ⟨by simp, ?_⟩
      intro p r _
      simp
    · rw [if_neg hn] at h
      exact absurd h (by simp)
  | cons x t ih =>
    unfold strstr at h
    by_cases hp : needle.isPrefixOf (x :: t) = true
    · rw [if_pos hp] at h
      have hoff : off = 0 := by
        have := Option.some.inj h
        omega
      subst hoff
      have hp' : needle <+: x :: t := by simpa using hp
      obtain ⟨r, hr⟩ := hp'
      refine ⟨?_, ?_⟩
      · rw [← hr]
        simp
      · intro p r _
        simp
    · rw [if_neg hp] at h
      cases hs : strstr t needle with
      | none => rw [hs] at h; exact absurd h (by simp)
      | some j =>
        rw [hs] at h
        have hoff : off = j + 1 := by
          have := Option.some.inj h
          simp at this
          omega
        subst hoff
        obtain ⟨h1, h2⟩ := ih j hs
        refine ⟨?_, ?_⟩
        · have e : j + 1 + needle.length = (j + needle.length) + 1 := by omega
          rw [e, List.take_succ_cons, List.drop_succ_cons]
          simp only [List.cons_append]
          exact congrArg (List.cons x) h1
        · intro p r hpr
          cases p with
          | nil =>
            exfalso
            apply hp
            have : needle <+: x :: t := ⟨r, by simpa using hpr.symm⟩
            simpa using this
          | cons y p' =>
            simp only [List.cons_append, List.cons.injEq] at hpr
            have := h2 p' r hpr.2
            simp only [List.length_take, List.length_cons] at this ⊢
            omega

theorem strstr_none_iff (hay needle : List Nat) :
    strstr hay needle = none ↔ ¬ needle <:+: hay := by
  induction hay with
  | nil =>
    unfold strstr
    by_cases hn : needle.isEmpty = true
    · have hn' : needle = [] := by simpa using hn
      subst hn'
      simp
    · have hn' : needle ≠ [] := by simpa using hn
      simp [hn']
  | cons x t ih =>
    unfold strstr
    by_cases hp : needle.isPrefixOf (x :: t) = true
    · rw [if_pos hp]
      have hp' : needle <+: x :: t := by simpa using hp
      simp only [reduceCtorEq, false_iff, not_not]
      exact hp'.isInfix
    · rw [if_neg hp]
      have hp' : ¬ needle <+: x :: t := by simpa using hp
      rw [List.infix_cons_iff, not_or]
      cases hs : strstr t needle with
      | none =>
        simp only [Option.map_none', true_iff]
        exact ⟨hp', ih.mp hs⟩
      | some j =>
        simp only [Option.map_some', reduceCtorEq, false_iff, not_and, not_not]
        intro _
        by_contra hc
        have := ih.mpr hc
        rw [hs] at this
        exact absurd this (by simp)

/-- From a first occurrence to the result of `strstr`. -/
theorem strstr_of_firstOccurrence (needle hay pre rest : List Nat)
    (h : FirstOccurrence needle hay pre rest) :
    ∃ off, strstr hay needle = some off ∧ hay.drop (off + needle.length) = rest := by
  cases hs : strstr hay needle with
  | none =>
    exfalso
    exact (strstr_none_iff hay needle).mp hs ⟨pre, rest, h.1.symm⟩
  | some off =>
    refine ⟨off, rfl, ?_⟩
    obtain ⟨h1, h2⟩ := strstr_some hay needle off hs
    obtain ⟨g1, g2⟩ := h
    have a := h2 pre rest g1
    have b := g2 _ _ h1
    have hlen : (hay.take off).length = pre.length := by omega
    have e : hay.take off ++ (needle ++ hay.drop (off + needle.length))
        = pre ++ (needle ++ rest) := by
      rw [← List.append_assoc, ← List.append_assoc, ← h1, ← g1]
    have e2 := (List.append_inj e hlen).2
    exact List.append_cancel_left e2

/-! ## The receive buffer of `set_stream_url_handler` -/

theorem MIN_le_right (a b : Nat) : MIN a b ≤ b := by
  unfold MIN; split <;> omega

theorem MIN_le_left (a b : Nat) : MIN a b ≤ a := by
  unfold MIN; split <;> omega

theorem store_zeros (n : Nat) (d : List Nat) (h : d.length ≤ n) :
    store (zeros n) d = d ++ zeros (n - d.length) := by
  unfold store zeros
  rw [List.drop_replicate, List.length_replicate]
  apply List.take_of_length_le
  simp only [List.length_append, List.length_replicate]
  omega

theorem cstr_append_zeros (d : List Nat) (k : Nat) (hk : 0 < k) :
    cstr (d ++ zeros k) = cstr d := by
  obtain ⟨j, rfl⟩ : ∃ j, k = j + 1 := ⟨k - 1, by omega⟩
  unfold zeros
  rw [List.replicate_succ, cstr_append_zero]

/-- The receive buffer after `httpd_req_recv` has returned `ret` and the
terminator has been written at index `ret`. -/
theorem content_buffer (n : Nat) (ret : Int) (data : List Nat) (h : ret.toNat < n) :
    ret.toNat < (store (zeros n) (data.take ret.toNat)).length ∧
    (store (zeros n) (data.take ret.toNat)).set ret.toNat 0
      = data.take ret.toNat ++ zeros (n - (data.take ret.toNat).length) ∧
    cstr (data.take ret.toNat ++ zeros (n - (data.take ret.toNat).length))
      = cstr (data.take ret.toNat) := by
  have hl : (data.take ret.toNat).length ≤ ret.toNat := by
    simp only [List.length_take]; omega
  refine ⟨?_, ?_, ?_⟩
  · rw [store_length, zeros_length]; exact h
  · rw [store_zeros _ _ (by omega), List.set_append, if_neg (by omega)]
    unfold zeros
    rw [List.set_replicate_self]
  · exact cstr_append_zeros _ _ (by omega)

theorem received_length_le (req : httpd_req_t) :
    (received req).length
      ≤ (req.recv (MIN req.content_len (MAX_URL_LENGTH - 1))).1.toNat := by
  unfold received
  simp only [List.length_take]
  omega

/-- With a transport that returns at most what it was asked for, the index of the
terminator write `content[ret]` lies inside the buffer. -/
theorem ret_lt (req : httpd_req_t) (hb : RecvBounded req) :
    (req.recv (MIN req.content_len (MAX_URL_LENGTH - 1))).1.toNat < MAX_URL_LENGTH := by
  have hm := MIN_le_right req.content_len (MAX_URL_LENGTH - 1)
  unfold RecvBounded at hb
  generalize (req.recv (MIN req.content_len (MAX_URL_LENGTH - 1))).1 = r at hb ⊢
  generalize MIN req.content_len (MAX_URL_LENGTH - 1) = m at hb hm
  simp only [MAX_URL_LENGTH] at hm ⊢
  omega

/-! ## The three outcomes of `set_stream_url_handler` -/

set_option maxRecDepth 20000 in
theorem set_url_recv_failed (req : httpd_req_t) (s : State)
    (h : (req.recv (MIN req.content_len (MAX_URL_LENGTH - 1))).1 ≤ 0) :
    set_stream_url_handler req s =
      some (httpd_resp_send_err (ESP_LOG s .error TAG "Failed to receive URL" [])
        .HTTPD_500_INTERNAL_SERVER_ERROR "Failed to receive URL", .returned .ESP_FAIL) := by
  simp only [set_stream_url_handler, httpd_req_recv, if_pos h]

set_option maxRecDepth 20000 in
theorem set_url_no_marker (req : httpd_req_t) (s : State) (hb : RecvBounded req)
    (hpos : 0 < (req.recv (MIN req.content_len (MAX_URL_LENGTH - 1))).1)
    (hn : strstr (cstr (received req)) (bytes "url=") = none) :
    set_stream_url_handler req s =
      some (httpd_resp_send_err
        (ESP_LOG (ESP_LOG s .info TAG "Received content: %s" [cstr (received req)])
          .error TAG "Invalid URL format" [])
        .HTTPD_400_BAD_REQUEST "Invalid URL format", .returned .ESP_FAIL) := by
  obtain ⟨c2, c3, c4⟩ := content_buffer MAX_URL_LENGTH
    (req.recv (MIN req.content_len (MAX_URL_LENGTH - 1))).1
    (req.recv (MIN req.content_len (MAX_URL_LENGTH - 1))).2 (ret_lt req hb)
  have h1 : ¬ (req.recv (MIN req.content_len (MAX_URL_LENGTH - 1))).1 ≤ 0 := not_le.mpr hpos
  simp only [received] at hn ⊢
  simp only [set_stream_url_handler, httpd_req_recv, if_neg h1, if_pos c2, c3, c4, hn]

set_option maxRecDepth 20000 in
theorem set_url_marker (req : httpd_req_t) (s : State) (hb : RecvBounded req)
    (hpos : 0 < (req.recv (MIN req.content_len (MAX_URL_LENGTH - 1))).1)
    (off : Nat) (hn : strstr (cstr (received req)) (bytes "url=") = some off) :
    set_stream_url_handler req s =
      some (esp_restart (vTaskDelay (httpd_resp_sendstr
        (ESP_LOG
          { ESP_LOG s .info TAG "Received content: %s" [cstr (received req)] with
            stream_url := snprintf_s s.stream_url MAX_URL_LENGTH
              ((cstr (received req)).drop (off + 4)) }
          .info TAG "New stream URL set: %s"
          [cstr (snprintf_s s.stream_url MAX_URL_LENGTH
              ((cstr (received req)).drop (off + 4)))])
        "Stream URL updated successfully. Restarting ESP32...")
        (pdMS_TO_TICKS 100)), .restarted) := by
  obtain ⟨c2, c3, c4⟩ := content_buffer MAX_URL_LENGTH
    (req.recv (MIN req.content_len (MAX_URL_LENGTH - 1))).1
    (req.recv (MIN req.content_len (MAX_URL_LENGTH - 1))).2 (ret_lt req hb)
  have h1 : ¬ (req.recv (MIN req.content_len (MAX_URL_LENGTH - 1))).1 ≤ 0 := not_le.mpr hpos
  have hfo := strstr_some _ _ _ hn
  have hlen : off + 4 ≤ (cstr (received req)).length := by
    have e := congrArg List.length hfo.1
    have e4 : (bytes "url=").length = 4 := by decide
    simp only [List.length_append, List.length_take, List.length_drop, e4] at e
    omega
  simp only [received] at hn hlen ⊢
  have hdrop := cstr_drop _ (off + 4) (by rw [c4]; exact hlen)
  rw [c4] at hdrop
  simp only [set_stream_url_handler, httpd_req_recv, if_neg h1, if_pos c2, c3, c4, hn, hdrop]
  rfl

/-! ## Writing `stream_url` -/

theorem snprintf_length (str : List Nat) (size : Nat) (arg : List Nat) :
    (snprintf_s str size arg).length = str.length := by
  unfold snprintf_s
  split
  · rfl
  · exact store_length _ _

theorem cstr_snprintf (str : List Nat) (size : Nat) (arg : List Nat)
    (hs : str.length = size) (ha : arg.length < size) :
    cstr (snprintf_s str size arg) = cstr arg := by
  unfold snprintf_s
  rw [if_neg (by omega), List.take_of_length_le (by omega), cstr_store _ _ (by omega)]

theorem snprintf_terminated (str : List Nat) (size : Nat) (arg : List Nat)
    (hs : str.length = size) (h0 : 0 < size) :
    (cstr (snprintf_s str size arg)).length < size := by
  unfold snprintf_s
  rw [if_neg (by omega)]
  have hl : (arg.take (size - 1)).length < str.length := by
    simp only [List.length_take]; omega
  rw [cstr_store _ _ hl]
  have := cstr_length_le (arg.take (size - 1))
  omega

/-- A buffer whose C string is shorter than the buffer holds a NUL byte. -/
theorem nul_mem_of_cstr_lt (buf : List Nat) (h : (cstr buf).length < buf.length) :
    0 ∈ buf := by
  by_contra hc
  rw [cstr_of_nulFree hc] at h
  omega

/-! ## The wrapper -/

theorem authenticated_handler_authorized (req : httpd_req_t) (handler : Handler)
    (s : State) (h : Authorized req) :
    authenticated_handler req handler s = handler req s := by
  simp [authenticated_handler, basic_auth_authorized req s h]

theorem authenticated_handler_unauthorized (req : httpd_req_t) (handler : Handler)
    (s : State) (hc : HeaderIsCString req) (h : ¬ Authorized req) :
    authenticated_handler req handler s =
      some (httpd_resp_send_err
        (httpd_resp_set_hdr s "WWW-Authenticate" "Basic realm=\"ESP32 Admin\"")
        .HTTPD_401_UNAUTHORIZED "Unauthorized", .returned .ESP_FAIL) := by
  simp [authenticated_handler, basic_auth_unauthorized req s hc h]

theorem mkReq_headerIsCString (auth : Option (List Nat)) (body : List Nat)
    (h : ∀ v, auth = some v → 0 ∉ v) : HeaderIsCString (mkReq auth body) := by
  intro v hv
  exact h v (by simpa [mkReq] using hv)

theorem mkReq_authorized (body : List Nat) : Authorized (mkReq (some expected_auth) body) := by
  simp [Authorized, mkReq]

/-! ## C1 and C2: the credential gate -/

/-- C1: a request whose `Authorization` header is absent, or whose value differs
from the expected credential, is refused on every route and with every wrapped
handler: the header `WWW-Authenticate: Basic realm="ESP32 Admin"` is set, the one
effect added is the response with status 401, `ESP_FAIL` is returned, the result
does not depend on the wrapped handler (it is not called), `stream_url` is
unchanged and no restart is among the effects. -/
theorem unauthorized_request_refused (req : httpd_req_t) (s : State)
    (hc : HeaderIsCString req)
    (h : req.hdr_value "Authorization" = none ∨
      ∃ v, req.hdr_value "Authorization" = some v ∧ v ≠ expected_auth) :
    ∃ s',
      (∀ handler : Handler,
        authenticated_handler req handler s = some (s', .returned .ESP_FAIL)) ∧
      (∀ route : Route, route.handler req s = some (s', .returned .ESP_FAIL)) ∧
      s'.resp_hdrs = s.resp_hdrs ++ [("WWW-Authenticate", "Basic realm=\"ESP32 Admin\"")] ∧
      s'.effects = s.effects ++
        [Effect.send ⟨401, "text/html",
          s.resp_hdrs ++ [("WWW-Authenticate", "Basic realm=\"ESP32 Admin\"")],
          bytes "Unauthorized"⟩] ∧
      s'.stream_url = s.stream_url ∧
      (Effect.esp_restart ∈ s'.effects → Effect.esp_restart ∈ s.effects) := by
  have hna : ¬ Authorized req := by
    unfold Authorized
    rcases h with h | ⟨v, hv, hne⟩
    · rw [h]; simp
    · rw [hv]; intro e; exact hne (Option.some.inj e)
  refine ⟨_, fun handler => authenticated_handler_unauthorized req handler s hc hna, ?_,
    ?_, ?_, ?_, ?_⟩
  · intro route
    cases route
    · exact authenticated_handler_unauthorized req _ s hc hna
    · exact authenticated_handler_unauthorized req _ s hc hna
    · exact authenticated_handler_unauthorized req _ s hc hna
  · rw [refusal_eq]
  · rw [refusal_eq]
  · rw [refusal_eq]
  · rw [refusal_eq]
    simp

/-- C2: `basic_auth` returns `ESP_OK` exactly when the `Authorization` header is
present with the value `Basic YWRtaW46YWRtaW4=`; it then leaves the state as it
was (no response is sent) and `authenticated_handler` gives the result of the
wrapped handler; and that value is `Basic ` followed by the Base64 encoding of
`admin:admin`. -/
theorem basic_auth_accepts_exactly_expected (req : httpd_req_t) (handler : Handler)
    (s : State) (hc : HeaderIsCString req) :
    ((basic_auth req s).2 = .ESP_OK ↔
      req.hdr_value "Authorization" = some (bytes "Basic YWRtaW46YWRtaW4=")) ∧
    ((basic_auth req s).2 = .ESP_OK →
      (basic_auth req s).1 = s ∧
      authenticated_handler req handler s = handler req s) ∧
    bytes "Basic YWRtaW46YWRtaW4=" = bytes "Basic " ++ base64_encode (bytes "admin:admin") := by
  have key : (basic_auth req s).2 = .ESP_OK ↔ Authorized req := by
    by_cases ha : Authorized req
    · simp [basic_auth_authorized req s ha, ha]
    · simp [basic_auth_unauthorized req s hc ha, ha]
  refine ⟨key, ?_, by decide⟩
  intro hok
  have ha := key.mp hok
  exact ⟨by rw [basic_auth_authorized req s ha], authenticated_handler_authorized req handler s ha⟩

set_option maxRecDepth 20000 in
/-- C1 at a request that carries the credential of somebody else. -/
theorem unauthorized_request_refused_witness :
    HeaderIsCString (mkReq (some (bytes "Basic Zm9vOmJhcg==")) (bytes "url=x")) ∧
    ∃ s', Route.set_url.handler (mkReq (some (bytes "Basic Zm9vOmJhcg==")) (bytes "url=x"))
        (fresh stream_url_init) = some (s', .returned .ESP_FAIL) ∧
      s'.stream_url = stream_url_init :=
  have hc : HeaderIsCString (mkReq (some (bytes "Basic Zm9vOmJhcg==")) (bytes "url=x")) :=
    mkReq_headerIsCString _ _ (fun v hv => by cases hv; decide)
  ⟨hc,
    (unauthorized_request_refused (mkReq (some (bytes "Basic Zm9vOmJhcg==")) (bytes "url=x"))
      (fresh stream_url_init) hc
      (Or.inr ⟨bytes "Basic Zm9vOmJhcg==", by simp [mkReq], by decide⟩)).elim
      (fun s' h => ⟨s', h.2.1 Route.set_url, h.2.2.2.2.1⟩)⟩

/-- C2 at a request that carries the expected credential. -/
theorem basic_auth_accepts_exactly_expected_witness :
    HeaderIsCString (mkReq (some expected_auth) []) ∧
    (basic_auth (mkReq (some expected_auth) []) (fresh stream_url_init)).2 = .ESP_OK :=
  have hc : HeaderIsCString (mkReq (some expected_auth) []) :=
    mkReq_headerIsCString _ _ (fun v hv => by cases hv; decide)
  ⟨hc, (basic_auth_accepts_exactly_expected (mkReq (some expected_auth) []) restart_handler
    (fresh stream_url_init) hc).1.mpr (by simp [mkReq, expected_auth])⟩

/-! ## An accepted update -/

theorem url_marker_length : (bytes "url=").length = 4 := by decide

/-- The update path: when the received C string has a first occurrence of `url=`,
the handler stores what follows it, answers 200, waits and restarts. -/
theorem set_url_accepted (req : httpd_req_t) (u pre rest : List Nat)
    (hb : RecvBounded req) (hu : u.length = MAX_URL_LENGTH)
    (hfo : FirstOccurrence (bytes "url=") (cstr (received req)) pre rest) :
    ∃ s', set_stream_url_handler req (fresh u) = some (s', .restarted) ∧
      cstr s'.stream_url = rest ∧
      s'.stream_url.length = MAX_URL_LENGTH ∧
      s'.effects =
        [Effect.log .info TAG "Received content: %s" [cstr (received req)],
         Effect.log .info TAG "New stream URL set: %s" [rest],
         Effect.send ⟨200, "text/html", [],
           bytes "Stream URL updated successfully. Restarting ESP32..."⟩,
         Effect.vTaskDelay (pdMS_TO_TICKS 100),
         Effect.esp_restart] := by
  obtain ⟨off, hoff, hrest⟩ := strstr_of_firstOccurrence _ _ _ _ hfo
  rw [url_marker_length] at hrest
  have hlen := congrArg List.length hfo.1
  simp only [List.length_append, url_marker_length] at hlen
  have h1 := cstr_length_le (received req)
  have h2 := received_length_le req
  have h3 := ret_lt req hb
  have hpos : 0 < (req.recv (MIN req.content_len (MAX_URL_LENGTH - 1))).1 := by omega
  have hrl : rest.length < MAX_URL_LENGTH := by omega
  have hnul : 0 ∉ rest := by
    intro hmem
    apply cstr_nulFree (received req)
    rw [hfo.1]
    simp [hmem]
  have hstore : cstr (snprintf_s u MAX_URL_LENGTH rest) = rest := by
    rw [cstr_snprintf _ _ _ hu hrl, cstr_of_nulFree hnul]
  rw [set_url_marker req (fresh u) hb hpos off hoff, hrest]
  refine ⟨_, rfl, ?_, ?_, ?_⟩
  · simpa [esp_restart, vTaskDelay, httpd_resp_sendstr, httpd_resp_send, ESP_LOG, fresh]
      using hstore
  · simpa [esp_restart, vTaskDelay, httpd_resp_sendstr, httpd_resp_send, ESP_LOG, fresh]
      using (snprintf_length u MAX_URL_LENGTH rest).trans hu
  · simp [esp_restart, vTaskDelay, httpd_resp_sendstr, httpd_resp_send, ESP_LOG, fresh, hstore]

/-- The 400 path in terms of its effects. -/
theorem set_url_rejected (req : httpd_req_t) (u : List Nat) (hb : RecvBounded req)
    (hpos : 0 < (req.recv (MIN req.content_len (MAX_URL_LENGTH - 1))).1)
    (hn : ¬ bytes "url=" <:+: cstr (received req)) :
    ∃ s', set_stream_url_handler req (fresh u) = some (s', .returned .ESP_FAIL) ∧
      s'.stream_url = u ∧
      s'.effects =
        [Effect.log .info TAG "Received content: %s" [cstr (received req)],
         Effect.log .error TAG "Invalid URL format" [],
         Effect.send ⟨400, "text/html", [], bytes "Invalid URL format"⟩] := by
  rw [set_url_no_marker req (fresh u) hb hpos ((strstr_none_iff _ _).mpr hn)]
  exact ⟨_, rfl, rfl, rfl⟩

/-- The 500 path in terms of its effects. -/
theorem set_url_unreadable (req : httpd_req_t) (u : List Nat)
    (h : (req.recv (MIN req.content_len (MAX_URL_LENGTH - 1))).1 ≤ 0) :
    ∃ s', set_stream_url_handler req (fresh u) = some (s', .returned .ESP_FAIL) ∧
      s'.stream_url = u ∧
      s'.effects =
        [Effect.log .error TAG "Failed to receive URL" [],
         Effect.send ⟨500, "text/html", [], bytes "Failed to receive URL"⟩] := by
  rw [set_url_recv_failed req (fresh u) h]
  exact ⟨_, rfl, rfl, rfl⟩

theorem received_of_recv (req : httpd_req_t) (d : List Nat)
    (h : req.recv (MIN req.content_len (MAX_URL_LENGTH - 1)) = ((d.length : Int), d)) :
    received req = d := by
  simp [received, h]

theorem responses_append (a b : List Effect) :
    responses (a ++ b) = responses a ++ responses b := by
  induction a with
  | nil => rfl
  | cons e t ih => cases e <;> simp [responses, ih]

theorem max_url_length_pred : MAX_URL_LENGTH - 1 = 255 := rfl

/-- The update path for a body without NUL of which the transport delivers the
first `MIN(content_len, 255)` bytes. -/
theorem set_url_accepted_body (req : httpd_req_t) (u body pre rest : List Nat)
    (ha : Authorized req) (hu : u.length = MAX_URL_LENGTH) (hnul : 0 ∉ body)
    (hrecv : req.recv (MIN req.content_len 255) =
      (((body.take (MIN req.content_len 255)).length : Int),
        body.take (MIN req.content_len 255)))
    (hfo : FirstOccurrence (bytes "url=") (body.take (MIN req.content_len 255)) pre rest) :
    ∃ s', set_stream_url_authenticated_handler req (fresh u) = some (s', .restarted) ∧
      responses s'.effects =
        [⟨200, "text/html", [], bytes "Stream URL updated successfully. Restarting ESP32..."⟩] ∧
      cstr s'.stream_url = rest ∧
      s'.effects =
        [Effect.log .info TAG "Received content: %s" [body.take (MIN req.content_len 255)],
         Effect.log .info TAG "New stream URL set: %s" [rest],
         Effect.send ⟨200, "text/html", [],
           bytes "Stream URL updated successfully. Restarting ESP32..."⟩,
         Effect.vTaskDelay (pdMS_TO_TICKS 100),
         Effect.esp_restart] := by
  rw [← max_url_length_pred] at hrecv hfo
  have hrec := received_of_recv req _ hrecv
  have hb : RecvBounded req := by
    unfold RecvBounded
    rw [hrecv]
    simp only [List.length_take]
    omega
  have hnul' : 0 ∉ body.take (MIN req.content_len (MAX_URL_LENGTH - 1)) :=
    fun hm => hnul (List.mem_of_mem_take hm)
  have hc : cstr (received req) = body.take (MIN req.content_len (MAX_URL_LENGTH - 1)) := by
    rw [hrec, cstr_of_nulFree hnul']
  rw [← hc] at hfo
  obtain ⟨s', h1, h2, _, h4⟩ := set_url_accepted req u pre rest hb hu hfo
  refine ⟨s', ?_, ?_, h2, ?_⟩
  · show authenticated_handler req set_stream_url_handler (fresh u) = _
    rw [authenticated_handler_authorized _ _ _ ha, h1]
  · rw [h4]; rfl
  · rw [h4, hc, max_url_length_pred]

/-! ## C3, C4 and C5: the update handler -/

/-- C3: an authorized POST to `/set_url` whose body has no NUL byte, is received
as its first `MIN(content_len, 255)` bytes and has `url=` among the received bytes
is answered with 200, and `stream_url` then holds exactly the received bytes after
the first `url=`, up to the end of what was received (whatever bytes these are:
`&` does not end the value and nothing is decoded). In particular the body
`url=http://10.0.0.5:9000` leaves `http://10.0.0.5:9000` in `stream_url`, and of a
body longer than 255 bytes the first 255 bytes are used and the request is
answered with 200 all the same. -/
theorem set_url_stores_bytes_after_marker :
    (∀ (req : httpd_req_t) (u body pre rest : List Nat),
      Authorized req → u.length = MAX_URL_LENGTH → 0 ∉ body →
      req.recv (MIN req.content_len 255) =
        (((body.take (MIN req.content_len 255)).length : Int),
          body.take (MIN req.content_len 255)) →
      FirstOccurrence (bytes "url=") (body.take (MIN req.content_len 255)) pre rest →
      ∃ s', set_stream_url_authenticated_handler req (fresh u) = some (s', .restarted) ∧
        responses s'.effects =
          [⟨200, "text/html", [],
            bytes "Stream URL updated successfully. Restarting ESP32..."⟩] ∧
        cstr s'.stream_url = rest) ∧
    (∀ (req : httpd_req_t) (u : List Nat),
      Authorized req → u.length = MAX_URL_LENGTH → req.content_len = 24 →
      req.recv 24 = (24, bytes "url=http://10.0.0.5:9000") →
      ∃ s', set_stream_url_authenticated_handler req (fresh u) = some (s', .restarted) ∧
        responses s'.effects =
          [⟨200, "text/html", [],
            bytes "Stream URL updated successfully. Restarting ESP32..."⟩] ∧
        cstr s'.stream_url = bytes "http://10.0.0.5:9000") ∧
    (∀ (req : httpd_req_t) (u body pre rest : List Nat),
      Authorized req → u.length = MAX_URL_LENGTH → 0 ∉ body →
      req.content_len = body.length → 255 < body.length →
      req.recv 255 = (255, body.take 255) →
      FirstOccurrence (bytes "url=") (body.take 255) pre rest →
      ∃ s', set_stream_url_authenticated_handler req (fresh u) = some (s', .restarted) ∧
        responses s'.effects =
          [⟨200, "text/html", [],
            bytes "Stream URL updated successfully. Restarting ESP32..."⟩] ∧
        cstr s'.stream_url = rest) := by
  refine ⟨?_, ?_, ?_⟩
  · intro req u body pre rest ha hu hnul hrecv hfo
    obtain ⟨s', h1, h2, h3, _⟩ := set_url_accepted_body req u body pre rest ha hu hnul hrecv hfo
    exact ⟨s', h1, h2, h3⟩
  · intro req u ha hu hcl hrecv
    have hm : MIN req.content_len 255 = 24 := by rw [hcl]; decide
    have htake : (bytes "url=http://10.0.0.5:9000").take 24 = bytes "url=http://10.0.0.5:9000" := by
      decide
    have hlen : (((bytes "url=http://10.0.0.5:9000").length : Nat) : Int) = 24 := by decide
    obtain ⟨s', h1, h2, h3, _⟩ := set_url_accepted_body req u (bytes "url=http://10.0.0.5:9000")
      [] (bytes "http://10.0.0.5:9000") ha hu (by decide)
      (by rw [hm, htake, hlen]; exact hrecv)
      (by
        rw [hm, htake]
        exact ⟨by decide, fun p r _ => Nat.zero_le _⟩)
    exact ⟨s', h1, h2, h3⟩
  · intro req u body pre rest ha hu hnul hcl hlong hrecv hfo
    have hm : MIN req.content_len 255 = 255 := by
      unfold MIN; rw [if_neg (by omega)]
    have hlen : (((body.take 255).length : Nat) : Int) = 255 := by
      simp only [List.length_take]; omega
    obtain ⟨s', h1, h2, h3, _⟩ := set_url_accepted_body req u body pre rest ha hu hnul
      (by rw [hm, hlen]; exact hrecv) (by rw [hm]; exact hfo)
    exact ⟨s', h1, h2, h3⟩

theorem stream_url_init_length : stream_url_init.length = MAX_URL_LENGTH := by
  unfold stream_url_init
  rw [store_length, zeros_length]

theorem mkReq_recvBounded (auth : Option (List Nat)) (body : List Nat) :
    RecvBounded (mkReq auth body) := by
  unfold RecvBounded
  simp only [mkReq, List.length_take]
  omega

/-- C3 at a body with a field before and a field after `url=`. -/
theorem set_url_stores_bytes_after_marker_witness :
    ∃ s', set_stream_url_authenticated_handler
        (mkReq (some expected_auth) (bytes "a=1&url=http://10.0.0.5:9000&b=2"))
        (fresh stream_url_init) = some (s', .restarted) ∧
      responses s'.effects =
        [⟨200, "text/html", [],
          bytes "Stream URL updated successfully. Restarting ESP32..."⟩] ∧
      cstr s'.stream_url = bytes "http://10.0.0.5:9000&b=2" :=
  set_url_stores_bytes_after_marker.1
    (mkReq (some expected_auth) (bytes "a=1&url=http://10.0.0.5:9000&b=2"))
    stream_url_init (bytes "a=1&url=http://10.0.0.5:9000&b=2")
    (bytes "a=1&") (bytes "http://10.0.0.5:9000&b=2")
    (mkReq_authorized _) stream_url_init_length (by decide) (by decide)
    (strstr_some (bytes "a=1&url=http://10.0.0.5:9000&b=2") (bytes "url=") 4 (by decide))

/-- C4: an authorized POST to `/set_url` whose received body is not empty and does
not contain `url=` is answered with status 400; the handler returns `ESP_FAIL`, no
restart is among its effects, and `stream_url` is what it was. -/
theorem set_url_without_marker_rejected (req : httpd_req_t) (u : List Nat)
    (ha : Authorized req) (hb : RecvBounded req)
    (hpos : 0 < (req.recv (MIN req.content_len 255)).1)
    (hn : ¬ bytes "url=" <:+: received req) :
    ∃ s', set_stream_url_authenticated_handler req (fresh u)
        = some (s', .returned .ESP_FAIL) ∧
      responses s'.effects = [⟨400, "text/html", [], bytes "Invalid URL format"⟩] ∧
      Effect.esp_restart ∉ s'.effects ∧
      s'.stream_url = u := by
  rw [← max_url_length_pred] at hpos
  have hn' : ¬ bytes "url=" <:+: cstr (received req) := fun h =>
    hn (h.trans ( List.takeWhile_prefix _).isInfix)
  obtain ⟨s', h1, h2, h3⟩ := set_url_rejected req u hb hpos hn'
  refine ⟨s', ?_, ?_, ?_, h2⟩
  · show authenticated_handler req set_stream_url_handler (fresh u) = _
    rw [authenticated_handler_authorized _ _ _ ha, h1]
  · rw [h3]; rfl
  · rw [h3]; simp

/-- C4 at a body that names its field `address`. -/
theorem set_url_without_marker_rejected_witness :
    ∃ s', set_stream_url_authenticated_handler
        (mkReq (some expected_auth) (bytes "address=http://10.0.0.5:9000"))
        (fresh stream_url_init) = some (s', .returned .ESP_FAIL) ∧
      responses s'.effects = [⟨400, "text/html", [], bytes "Invalid URL format"⟩] ∧
      Effect.esp_restart ∉ s'.effects ∧
      s'.stream_url = stream_url_init :=
  set_url_without_marker_rejected
    (mkReq (some expected_auth) (bytes "address=http://10.0.0.5:9000")) stream_url_init
    (mkReq_authorized _) (mkReq_recvBounded _ _) (by decide) (by decide)

/-- C5: an authorized POST to `/set_url` for which `httpd_req_recv` returns zero or
an error (a result `<= 0`) is answered with status 500; the handler returns
`ESP_FAIL`, no restart is among its effects, and `stream_url` is what it was. A
request with content length 0 is such a request, since the transport returns at
most the zero bytes it is asked for. -/
theorem set_url_unreadable_body (req : httpd_req_t) (u : List Nat)
    (ha : Authorized req) :
    ((req.recv (MIN req.content_len 255)).1 ≤ 0 →
      ∃ s', set_stream_url_authenticated_handler req (fresh u)
          = some (s', .returned .ESP_FAIL) ∧
        responses s'.effects = [⟨500, "text/html", [], bytes "Failed to receive URL"⟩] ∧
        Effect.esp_restart ∉ s'.effects ∧
        s'.stream_url = u) ∧
    (req.content_len = 0 → RecvBounded req →
      (req.recv (MIN req.content_len 255)).1 ≤ 0) := by
  constructor
  · intro h
    rw [← max_url_length_pred] at h
    obtain ⟨s', h1, h2, h3⟩ := set_url_unreadable req u h
    refine ⟨s', ?_, ?_, ?_, h2⟩
    · show authenticated_handler req set_stream_url_handler (fresh u) = _
      rw [authenticated_handler_authorized _ _ _ ha, h1]
    · rw [h3]; rfl
    · rw [h3]; simp
  · intro h0 hb
    unfold RecvBounded at hb
    rw [max_url_length_pred] at hb
    have hm : MIN req.content_len 255 = 0 := by rw [h0]; rfl
    rw [hm] at hb ⊢
    simpa using hb

/-- C5 at a request without a body. -/
theorem set_url_unreadable_body_witness :
    ∃ s', set_stream_url_authenticated_handler (mkReq (some expected_auth) [])
        (fresh stream_url_init) = some (s', .returned .ESP_FAIL) ∧
      responses s'.effects = [⟨500, "text/html", [], bytes "Failed to receive URL"⟩] ∧
      Effect.esp_restart ∉ s'.effects ∧
      s'.stream_url = stream_url_init :=
  (set_url_unreadable_body (mkReq (some expected_auth) []) stream_url_init
    (mkReq_authorized _)).1 (by decide)

/-! ## C6: the admin page -/

theorem admin_panel_run (req : httpd_req_t) (u : List Nat) (ha : Authorized req) :
    admin_panel_authenticated_handler req (fresh u) =
      some ({ fresh u with effects :=
        [Effect.send ⟨200, "text/html", [], bytes admin_panel_html⟩] },
        .returned .ESP_OK) := by
  show authenticated_handler req admin_panel_handler (fresh u) = _
  rw [authenticated_handler_authorized _ _ _ ha]
  rfl

theorem cstr_stream_url_init : cstr stream_url_init = bytes "http://192.168.9.184:8001" := by
  decide!

/-- C6, amended: for every value `u` of `stream_url`, an authorized GET to `/` is
answered with status 200, content type `text/html` and the constant page
`admin_panel_html` as body, whatever `u` is, and `stream_url` is left as it was.
The page contains the compiled-in address `http://192.168.9.184:8001`, so the body
contains the current value of `stream_url` when that is the initial one. -/
theorem admin_panel_serves_fixed_page (req : httpd_req_t) (u : List Nat)
    (ha : Authorized req) :
    ∃ s', admin_panel_authenticated_handler req (fresh u) = some (s', .returned .ESP_OK) ∧
      responses s'.effects = [⟨200, "text/html", [], bytes admin_panel_html⟩] ∧
      s'.stream_url = u ∧
      bytes "http://192.168.9.184:8001" <:+: bytes admin_panel_html ∧
      (cstr u = cstr stream_url_init → cstr u <:+: bytes admin_panel_html) := by
  refine ⟨_, admin_panel_run req u ha, rfl, rfl, by decide!, ?_⟩
  intro h
  rw [h, cstr_stream_url_init]
  decide!

/-- C6 (amended) at the initial state. -/
theorem admin_panel_serves_fixed_page_witness :
    ∃ s', admin_panel_authenticated_handler (mkReq (some expected_auth) [])
        (fresh stream_url_init) = some (s', .returned .ESP_OK) ∧
      responses s'.effects = [⟨200, "text/html", [], bytes admin_panel_html⟩] ∧
      s'.stream_url = stream_url_init ∧
      bytes "http://192.168.9.184:8001" <:+: bytes admin_panel_html ∧
      (cstr stream_url_init = cstr stream_url_init →
        cstr stream_url_init <:+: bytes admin_panel_html) :=
  admin_panel_serves_fixed_page (mkReq (some expected_auth) []) stream_url_init
    (mkReq_authorized _)

/-- C6 as stated fails: after the update `url=http://10.0.0.5:9000` has been
written (and before the restart), `stream_url` holds `http://10.0.0.5:9000`, and
the body of the 200 response to an authorized GET to `/` does not contain it. -/
theorem admin_panel_shows_current_value_counterexample :
    ∃ s1 s2 resp,
      Route.set_url.handler (mkReq (some expected_auth) (bytes "url=http://10.0.0.5:9000"))
        (fresh stream_url_init) = some (s1, .restarted) ∧
      cstr s1.stream_url = bytes "http://10.0.0.5:9000" ∧
      Route.admin_panel.handler (mkReq (some expected_auth) []) (fresh s1.stream_url)
        = some (s2, .returned .ESP_OK) ∧
      responses s2.effects = [resp] ∧ resp.status = 200 ∧
      ¬ cstr s1.stream_url <:+: resp.body := by
  obtain ⟨s1, h1, _, h3, _⟩ := set_url_accepted_body
    (mkReq (some expected_auth) (bytes "url=http://10.0.0.5:9000")) stream_url_init
    (bytes "url=http://10.0.0.5:9000") [] (bytes "http://10.0.0.5:9000")
    (mkReq_authorized _) stream_url_init_length (by decide) (by decide)
    (strstr_some (bytes "url=http://10.0.0.5:9000") (bytes "url=") 0 (by decide))
  refine ⟨s1, _, ⟨200, "text/html", [], bytes admin_panel_html⟩, h1, h3,
    admin_panel_run _ _ (mkReq_authorized _), rfl, rfl, ?_⟩
  rw [h3]
  decide!

/-! ## The three cases of an authorized update -/

/-- Every run of `set_stream_url_handler` with a transport that returns at most
what it was asked for is one of: nothing received (500), no `url=` in the received
C string (400), or an update with what follows the first `url=`. -/
theorem set_url_cases (req : httpd_req_t) (u : List Nat) (hb : RecvBounded req)
    (hu : u.length = MAX_URL_LENGTH) :
    ((req.recv (MIN req.content_len (MAX_URL_LENGTH - 1))).1 ≤ 0 ∧
      ¬ bytes "url=" <:+: cstr (received req) ∧
      ∃ s', set_stream_url_handler req (fresh u) = some (s', .returned .ESP_FAIL) ∧
        s'.stream_url = u ∧
        s'.effects =
          [Effect.log .error TAG "Failed to receive URL" [],
           Effect.send ⟨500, "text/html", [], bytes "Failed to receive URL"⟩]) ∨
    (0 < (req.recv (MIN req.content_len (MAX_URL_LENGTH - 1))).1 ∧
      ¬ bytes "url=" <:+: cstr (received req) ∧
      ∃ s', set_stream_url_handler req (fresh u) = some (s', .returned .ESP_FAIL) ∧
        s'.stream_url = u ∧
        s'.effects =
          [Effect.log .info TAG "Received content: %s" [cstr (received req)],
           Effect.log .error TAG "Invalid URL format" [],
           Effect.send ⟨400, "text/html", [], bytes "Invalid URL format"⟩]) ∨
    (bytes "url=" <:+: cstr (received req) ∧
      ∃ pre rest, FirstOccurrence (bytes "url=") (cstr (received req)) pre rest ∧
      ∃ s', set_stream_url_handler req (fresh u) = some (s', .restarted) ∧
        cstr s'.stream_url = rest ∧
        s'.stream_url.length = MAX_URL_LENGTH ∧
        s'.effects =
          [Effect.log .info TAG "Received content: %s" [cstr (received req)],
           Effect.log .info TAG "New stream URL set: %s" [rest],
           Effect.send ⟨200, "text/html", [],
             bytes "Stream URL updated successfully. Restarting ESP32..."⟩,
           Effect.vTaskDelay (pdMS_TO_TICKS 100),
           Effect.esp_restart]) := by
  by_cases hinf : bytes "url=" <:+: cstr (received req)
  · right; right
    refine ⟨hinf, ?_⟩
    cases hs : strstr (cstr (received req)) (bytes "url=") with
    | none => exact absurd hinf ((strstr_none_iff _ _).mp hs)
    | some off =>
      have hfo := strstr_some _ _ _ hs
      exact ⟨_, _, hfo, set_url_accepted req u _ _ hb hu hfo⟩
  · by_cases hpos : 0 < (req.recv (MIN req.content_len (MAX_URL_LENGTH - 1))).1
    · right; left
      exact ⟨hpos, hinf, set_url_rejected req u hb hpos hinf⟩
    · left
      exact ⟨not_lt.mp hpos, hinf, set_url_unreadable req u (not_lt.mp hpos)⟩

theorem set_url_authenticated_eq (req : httpd_req_t) (s : State) (ha : Authorized req) :
    set_stream_url_authenticated_handler req s = set_stream_url_handler req s :=
  authenticated_handler_authorized req set_stream_url_handler s ha

/-! ## C7: an empty candidate -/

/-- C7, amended: an authorized POST to `/set_url` (the transport returning at most
what it was asked for) always ends; when it is answered with 200, `stream_url`
afterwards is the candidate, the bytes that follow the first `url=` of the
received C string, whether or not that is empty; and an update whose candidate is
empty is answered with 200 as well and leaves `stream_url` empty. -/
theorem successful_update_stores_candidate (req : httpd_req_t) (u : List Nat)
    (ha : Authorized req) (hb : RecvBounded req) (hu : u.length = MAX_URL_LENGTH) :
    (∃ out, set_stream_url_authenticated_handler req (fresh u) = some out) ∧
    (∀ s' r, set_stream_url_authenticated_handler req (fresh u) = some (s', r) →
      (∃ resp, resp ∈ responses s'.effects ∧ resp.status = 200) →
      ∃ pre rest, FirstOccurrence (bytes "url=") (cstr (received req)) pre rest ∧
        cstr s'.stream_url = rest) ∧
    (∀ pre, FirstOccurrence (bytes "url=") (cstr (received req)) pre [] →
      ∃ s', set_stream_url_authenticated_handler req (fresh u) = some (s', .restarted) ∧
        responses s'.effects =
          [⟨200, "text/html", [],
            bytes "Stream URL updated successfully. Restarting ESP32..."⟩] ∧
        cstr s'.stream_url = []) := by
  rw [set_url_authenticated_eq req _ ha]
  refine ⟨?_, ?_, ?_⟩
  · rcases set_url_cases req u hb hu with ⟨_, _, s', h, _⟩ | ⟨_, _, s', h, _⟩ |
      ⟨_, _, _, _, s', h, _⟩
    · exact ⟨_, h⟩
    · exact ⟨_, h⟩
    · exact ⟨_, h⟩
  · intro s' r hrun ⟨resp, hmem, h200⟩
    rcases set_url_cases req u hb hu with ⟨_, _, s1, h, _, he⟩ | ⟨_, _, s1, h, _, he⟩ |
      ⟨_, pre, rest, hfo, s1, h, hc, _⟩
    · rw [h] at hrun
      obtain ⟨rfl, _⟩ := Prod.mk.inj (Option.some.inj hrun)
      rw [he] at hmem
      simp only [responses, List.mem_singleton] at hmem
      rw [hmem] at h200
      exact absurd h200 (by decide)
    · rw [h] at hrun
      obtain ⟨rfl, _⟩ := Prod.mk.inj (Option.some.inj hrun)
      rw [he] at hmem
      simp only [responses, List.mem_singleton] at hmem
      rw [hmem] at h200
      exact absurd h200 (by decide)
    · rw [h] at hrun
      obtain ⟨rfl, _⟩ := Prod.mk.inj (Option.some.inj hrun)
      exact ⟨pre, rest, hfo, hc⟩
  · intro pre hfo
    obtain ⟨s', h1, h2, _, h4⟩ := set_url_accepted req u pre [] hb hu hfo
    exact ⟨s', h1, by rw [h4]; rfl, h2⟩

/-- C7 (amended) at the body `url=`. -/
theorem successful_update_stores_candidate_witness :
    ∃ s', set_stream_url_authenticated_handler (mkReq (some expected_auth) (bytes "url="))
        (fresh stream_url_init) = some (s', .restarted) ∧
      responses s'.effects =
        [⟨200, "text/html", [],
          bytes "Stream URL updated successfully. Restarting ESP32..."⟩] ∧
      cstr s'.stream_url = [] :=
  (successful_update_stores_candidate (mkReq (some expected_auth) (bytes "url="))
    stream_url_init (mkReq_authorized _) (mkReq_recvBounded _ _)
    stream_url_init_length).2.2 []
    (strstr_some (cstr (received (mkReq (some expected_auth) (bytes "url="))))
      (bytes "url=") 0 (by decide))

/-- C7 as stated fails: the authorized POST to `/set_url` with body `url=` is
answered with 200 and leaves the empty string in `stream_url`, which held the
initial address before. -/
theorem empty_candidate_counterexample :
    ∃ s', Route.set_url.handler (mkReq (some expected_auth) (bytes "url="))
        (fresh stream_url_init) = some (s', .restarted) ∧
      responses s'.effects =
        [⟨200, "text/html", [],
          bytes "Stream URL updated successfully. Restarting ESP32..."⟩] ∧
      cstr s'.stream_url = [] ∧
      cstr stream_url_init ≠ [] := by
  obtain ⟨s', h1, h2, h3, _⟩ := set_url_accepted_body
    (mkReq (some expected_auth) (bytes "url=")) stream_url_init (bytes "url=") [] []
    (mkReq_authorized _) stream_url_init_length (by decide) (by decide)
    (strstr_some (bytes "url=") (bytes "url=") 0 (by decide))
  refine ⟨s', h1, h2, h3, ?_⟩
  rw [cstr_stream_url_init]
  decide

/-! ## C8: the longest candidate -/

theorem mkReq_content_len (auth : Option (List Nat)) (body : List Nat) :
    (mkReq auth body).content_len = body.length := rfl

theorem mkReq_recv (auth : Option (List Nat)) (body : List Nat) (n : Nat) :
    (mkReq auth body).recv n = (((body.take n).length : Int), body.take n) := rfl

theorem nul_not_mem_replicate (n : Nat) : 0 ∉ List.replicate n 97 := by
  intro h
  have := List.eq_of_mem_replicate h
  omega

/-- The update with body `url=` followed by `v`: the first 251 bytes of `v` are
stored. -/
theorem set_url_candidate (req : httpd_req_t) (u v : List Nat)
    (ha : Authorized req) (hu : u.length = MAX_URL_LENGTH) (hnul : 0 ∉ v)
    (hcl : req.content_len = (bytes "url=" ++ v).length)
    (hrecv : req.recv (MIN req.content_len 255) =
      ((((bytes "url=" ++ v).take (MIN req.content_len 255)).length : Int),
        (bytes "url=" ++ v).take (MIN req.content_len 255))) :
    ∃ s', set_stream_url_authenticated_handler req (fresh u) = some (s', .restarted) ∧
      responses s'.effects =
        [⟨200, "text/html", [],
          bytes "Stream URL updated successfully. Restarting ESP32..."⟩] ∧
      cstr s'.stream_url = v.take 251 := by
  have hbody : 0 ∉ bytes "url=" ++ v := by
    intro h
    rcases List.mem_append.mp h with h | h
    · exact absurd h (by decide)
    · exact hnul h
  have hlen : (bytes "url=" ++ v).length = 4 + v.length := by
    rw [List.length_append, url_marker_length]
  have htake : (bytes "url=" ++ v).take (MIN req.content_len 255)
      = [] ++ bytes "url=" ++ v.take 251 := by
    rw [hcl, hlen, List.take_append_eq_append_take, url_marker_length, List.nil_append]
    unfold MIN
    by_cases hlt : 4 + v.length < 255
    · rw [if_pos hlt, List.take_of_length_le (by rw [url_marker_length]; omega),
        List.take_of_length_le (by omega), List.take_of_length_le (by omega)]
    · rw [if_neg hlt, List.take_of_length_le (by rw [url_marker_length]; omega)]
  obtain ⟨s', h1, h2, h3, _⟩ := set_url_accepted_body req u (bytes "url=" ++ v) []
    (v.take 251) ha hu hbody hrecv ⟨htake, fun p r _ => Nat.zero_le _⟩
  exact ⟨s', h1, h2, h3⟩

/-- C8, amended: for every candidate `v` without NUL byte, an authorized POST to
`/set_url` whose body is `url=` followed by `v`, whose content length is the
length of that body, and whose body is received by the one call of
`httpd_req_recv` as its first `MIN(content_len, 255)` bytes, is answered with 200
and leaves the first 251 bytes of `v` in `stream_url`: a candidate of at most 251
bytes, the longest that fits behind `url=` in the 255 bytes read, is stored whole,
and of a longer one only the first 251 bytes. -/
theorem set_url_candidate_cut_to_251 (req : httpd_req_t) (u v : List Nat)
    (ha : Authorized req) (hu : u.length = MAX_URL_LENGTH) (hnul : 0 ∉ v)
    (hcl : req.content_len = (bytes "url=" ++ v).length)
    (hrecv : req.recv (MIN req.content_len 255) =
      ((((bytes "url=" ++ v).take (MIN req.content_len 255)).length : Int),
        (bytes "url=" ++ v).take (MIN req.content_len 255))) :
    ∃ s', set_stream_url_authenticated_handler req (fresh u) = some (s', .restarted) ∧
      responses s'.effects =
        [⟨200, "text/html", [],
          bytes "Stream URL updated successfully. Restarting ESP32..."⟩] ∧
      cstr s'.stream_url = v.take 251 ∧
      (v.length ≤ 251 → cstr s'.stream_url = v) := by
  obtain ⟨s', h1, h2, h3⟩ := set_url_candidate req u v ha hu hnul hcl hrecv
  exact ⟨s', h1, h2, h3, fun hle => by rw [h3, List.take_of_length_le hle]⟩

/-- C8 (amended) at a candidate of 251 bytes `a`. -/
theorem set_url_candidate_cut_to_251_witness :
    ∃ s', set_stream_url_authenticated_handler
        (mkReq (some expected_auth) (bytes "url=" ++ List.replicate 251 97))
        (fresh stream_url_init) = some (s', .restarted) ∧
      responses s'.effects =
        [⟨200, "text/html", [],
          bytes "Stream URL updated successfully. Restarting ESP32..."⟩] ∧
      cstr s'.stream_url = (List.replicate 251 97).take 251 ∧
      ((List.replicate 251 97).length ≤ 251 → cstr s'.stream_url = List.replicate 251 97) :=
  set_url_candidate_cut_to_251
    (mkReq (some expected_auth) (bytes "url=" ++ List.replicate 251 97))
    stream_url_init (List.replicate 251 97) (mkReq_authorized _) stream_url_init_length
    (nul_not_mem_replicate 251) (mkReq_content_len _ _) (mkReq_recv _ _ _)

/-- C8 as stated fails: for the candidate of 255 bytes `a`, the authorized POST to
`/set_url` with body `url=` followed by the candidate is answered with 200 and
leaves its first 251 bytes, not the candidate, in `stream_url`. -/
theorem candidate_of_255_bytes_counterexample :
    (List.replicate 255 97).length = 255 ∧ 0 ∉ List.replicate 255 97 ∧
    ∃ s', Route.set_url.handler
        (mkReq (some expected_auth) (bytes "url=" ++ List.replicate 255 97))
        (fresh stream_url_init) = some (s', .restarted) ∧
      cstr s'.stream_url = List.replicate 251 97 ∧
      cstr s'.stream_url ≠ List.replicate 255 97 := by
  refine ⟨List.length_replicate 255 97, nul_not_mem_replicate 255, ?_⟩
  obtain ⟨s', h1, _, h3⟩ := set_url_candidate
    (mkReq (some expected_auth) (bytes "url=" ++ List.replicate 255 97))
    stream_url_init (List.replicate 255 97) (mkReq_authorized _) stream_url_init_length
    (nul_not_mem_replicate 255) (mkReq_content_len _ _) (mkReq_recv _ _ _)
  have hmin : min 251 255 = 251 := by decide
  have h4 : cstr s'.stream_url = List.replicate 251 97 := by
    rw [h3, List.take_replicate, hmin]
  refine ⟨s', h1, h4, ?_⟩
  rw [h4]
  intro h
  have := congrArg List.length h
  rw [List.length_replicate, List.length_replicate] at this
  omega

/-! ## C9: when the restart happens -/

theorem eq_of_append_singleton_eq {α : Type} (b pre post : List α) (x : α)
    (hx : x ∉ b) (h : b ++ [x] = pre ++ x :: post) : pre = b ∧ post = [] := by
  induction b generalizing pre with
  | nil =>
    cases pre with
    | nil =>
      simp only [List.nil_append, List.cons.injEq, true_and] at h
      exact ⟨rfl, h.symm⟩
    | cons y pre' =>
      simp only [List.nil_append, List.cons_append, List.cons.injEq] at h
      exact absurd h.2 (by simp)
  | cons z b' ih =>
    have hz : x ≠ z := fun e => hx (by simp [e])
    have hb' : x ∉ b' := fun e => hx (by simp [e])
    cases pre with
    | nil =>
      simp only [List.cons_append, List.nil_append, List.cons.injEq] at h
      exact absurd h.1.symm hz
    | cons y pre' =>
      simp only [List.cons_append, List.cons.injEq] at h
      obtain ⟨h1, h2⟩ := ih pre' hb' h.2
      exact ⟨by rw [h.1, h1], h2⟩

/-- A list of effects without restart cannot be split at a restart. -/
theorem no_split_of_not_mem (es pre post : List Effect) (h : Effect.esp_restart ∉ es)
    (hs : es = pre ++ Effect.esp_restart :: post) : False := by
  apply h
  rw [hs]
  simp

/-- The restart at the end of `a ++ [send resp, vTaskDelay t, esp_restart]` is the
only one when `a` has none. -/
theorem split_at_restart (a : List Effect) (resp : Response) (t : TickType_t)
    (ha : Effect.esp_restart ∉ a) (pre post : List Effect)
    (h : a ++ [Effect.send resp, Effect.vTaskDelay t, Effect.esp_restart]
      = pre ++ Effect.esp_restart :: post) :
    post = [] ∧ pre = a ++ [Effect.send resp, Effect.vTaskDelay t] := by
  have hx : Effect.esp_restart ∉ a ++ [Effect.send resp, Effect.vTaskDelay t] := by
    simp [ha]
  have h' : (a ++ [Effect.send resp, Effect.vTaskDelay t]) ++ [Effect.esp_restart]
      = pre ++ Effect.esp_restart :: post := by
    rw [← h]; simp
  obtain ⟨h1, h2⟩ := eq_of_append_singleton_eq _ _ _ _ hx h'
  exact ⟨h2, h1⟩

theorem restart_run (req : httpd_req_t) (u : List Nat) (ha : Authorized req) :
    restart_authenticated_handler req (fresh u) =
      some ({ fresh u with effects :=
        [Effect.log .info TAG "Restarting ESP32..." [],
         Effect.send ⟨200, "text/html", [], bytes "ESP32 is restarting..."⟩,
         Effect.vTaskDelay (pdMS_TO_TICKS 100),
         Effect.esp_restart] }, .restarted) := by
  show authenticated_handler req restart_handler (fresh u) = _
  rw [authenticated_handler_authorized _ _ _ ha]
  rfl

theorem unauthorized_run (route : Route) (req : httpd_req_t) (u : List Nat)
    (hc : HeaderIsCString req) (ha : ¬ Authorized req) :
    route.handler req (fresh u) =
      some ({ stream_url := u, resp_status := 401, resp_type := "text/html",
              resp_hdrs := [("WWW-Authenticate", "Basic realm=\"ESP32 Admin\"")],
              effects := [Effect.send ⟨401, "text/html",
                [("WWW-Authenticate", "Basic realm=\"ESP32 Admin\"")],
                bytes "Unauthorized"⟩] }, .returned .ESP_FAIL) := by
  cases route
  · exact authenticated_handler_unauthorized req _ _ hc ha
  · exact authenticated_handler_unauthorized req _ _ hc ha
  · exact authenticated_handler_unauthorized req _ _ hc ha

theorem restart_absent (es : List Effect) (h : Effect.esp_restart ∉ es) :
    ∀ pre post, es = pre ++ Effect.esp_restart :: post →
      post = [] ∧ ∃ pre' resp, resp.status = 200 ∧
        pre = pre' ++ [Effect.send resp, Effect.vTaskDelay (pdMS_TO_TICKS 100)] :=
  fun pre post hs => (no_split_of_not_mem es pre post h hs).elim

theorem restart_present (a : List Effect) (resp : Response) (h200 : resp.status = 200)
    (ha : Effect.esp_restart ∉ a) :
    ∀ pre post,
      a ++ [Effect.send resp, Effect.vTaskDelay (pdMS_TO_TICKS 100), Effect.esp_restart]
        = pre ++ Effect.esp_restart :: post →
      post = [] ∧ ∃ pre' resp, resp.status = 200 ∧
        pre = pre' ++ [Effect.send resp, Effect.vTaskDelay (pdMS_TO_TICKS 100)] := by
  intro pre post hs
  obtain ⟨h1, h2⟩ := split_at_restart a resp _ ha pre post hs
  exact ⟨h1, a, resp, h200, h2⟩

/-- C9, amended: on every route and for every request (the transport returning at
most what it was asked for), the handler ends, and among its effects a restart is
the last one, directly preceded by the 100 ms delay, itself directly preceded by
the sending of a response with status 200. The restart is invoked exactly for an
authorized GET `/restart` and for an authorized POST `/set_url` whose received
body, read as a C string (up to its first NUL byte), contains `url=`. No request
answered with 401, 400 or 500 and no GET `/` invokes it. -/
theorem restart_follows_response_and_delay (route : Route) (req : httpd_req_t)
    (u : List Nat) (hc : HeaderIsCString req) (hb : RecvBounded req)
    (hu : u.length = MAX_URL_LENGTH) :
    ∃ s' r, route.handler req (fresh u) = some (s', r) ∧
      (Effect.esp_restart ∈ s'.effects ↔
        Authorized req ∧ (route = .restart ∨
          (route = .set_url ∧ bytes "url=" <:+: cstr (received req)))) ∧
      (∀ pre post, s'.effects = pre ++ Effect.esp_restart :: post →
        post = [] ∧ ∃ pre' resp, resp.status = 200 ∧
          pre = pre' ++ [Effect.send resp, Effect.vTaskDelay (pdMS_TO_TICKS 100)]) ∧
      ((∃ resp, resp ∈ responses s'.effects ∧
          (resp.status = 401 ∨ resp.status = 400 ∨ resp.status = 500)) →
        Effect.esp_restart ∉ s'.effects) ∧
      (route = .admin_panel → Effect.esp_restart ∉ s'.effects) := by
  by_cases ha : Authorized req
  · cases route
    · refine ⟨_, _, admin_panel_run req u ha, ?_, ?_, ?_, ?_⟩
      · simp
      · exact restart_absent _ (by simp)
      · intro _; simp
      · intro _; simp
    · rcases set_url_cases req u hb hu with ⟨_, hn, s', h, _, he⟩ | ⟨_, hn, s', h, _, he⟩ |
        ⟨hinf, pre, rest, hfo, s', h, _, _, he⟩
      · refine ⟨s', _, (set_url_authenticated_eq req _ ha).trans h, ?_, ?_, ?_, ?_⟩
        · rw [he]; simp [hn]
        · rw [he]; exact restart_absent _ (by simp)
        · intro _; rw [he]; simp
        · intro _; rw [he]; simp
      · refine ⟨s', _, (set_url_authenticated_eq req _ ha).trans h, ?_, ?_, ?_, ?_⟩
        · rw [he]; simp [hn]
        · rw [he]; exact restart_absent _ (by simp)
        · intro _; rw [he]; simp
        · intro _; rw [he]; simp
      · refine ⟨s', _, (set_url_authenticated_eq req _ ha).trans h, ?_, ?_, ?_, ?_⟩
        · rw [he]; simp [ha, hinf]
        · rw [he]
          exact restart_present
            [Effect.log .info TAG "Received content: %s" [cstr (received req)],
             Effect.log .info TAG "New stream URL set: %s" [rest]] _ rfl (by simp)
        · rintro ⟨resp, hmem, hst⟩
          rw [he] at hmem
          simp only [responses, List.mem_singleton] at hmem
          rw [hmem] at hst
          simp at hst
        · intro hr; exact absurd hr (by simp)
    · refine ⟨_, _, restart_run req u ha, ?_, ?_, ?_, ?_⟩
      · simp [ha]
      · exact restart_present [Effect.log .info TAG "Restarting ESP32..." []] _ rfl (by simp)
      · rintro ⟨resp, hmem, hst⟩
        simp only [responses, List.mem_singleton] at hmem
        rw [hmem] at hst
        simp at hst
      · intro hr; exact absurd hr (by simp)
  · refine ⟨_, _, unauthorized_run route req u hc ha, ?_, ?_, ?_, ?_⟩
    · simp [ha]
    · exact restart_absent _ (by simp)
    · intro _; simp
    · intro _; simp

/-- C9 (amended) at an authorized update. -/
theorem restart_follows_response_and_delay_witness :
    ∃ s' r, Route.set_url.handler
        (mkReq (some expected_auth) (bytes "url=http://10.0.0.5:9000"))
        (fresh stream_url_init) = some (s', r) ∧
      (Effect.esp_restart ∈ s'.effects ↔
        Authorized (mkReq (some expected_auth) (bytes "url=http://10.0.0.5:9000")) ∧
          (Route.set_url = .restart ∨ (Route.set_url = .set_url ∧ bytes "url=" <:+:
            cstr (received (mkReq (some expected_auth) (bytes "url=http://10.0.0.5:9000")))))) ∧
      (∀ pre post, s'.effects = pre ++ Effect.esp_restart :: post →
        post = [] ∧ ∃ pre' resp, resp.status = 200 ∧
          pre = pre' ++ [Effect.send resp, Effect.vTaskDelay (pdMS_TO_TICKS 100)]) ∧
      ((∃ resp, resp ∈ responses s'.effects ∧
          (resp.status = 401 ∨ resp.status = 400 ∨ resp.status = 500)) →
        Effect.esp_restart ∉ s'.effects) ∧
      (Route.set_url = .admin_panel → Effect.esp_restart ∉ s'.effects) :=
  restart_follows_response_and_delay Route.set_url
    (mkReq (some expected_auth) (bytes "url=http://10.0.0.5:9000")) stream_url_init
    (mkReq_headerIsCString _ _ (fun v hv => by cases hv; decide))
    (mkReq_recvBounded _ _) stream_url_init_length

/-- C9 as stated fails: the received body of this authorized POST to `/set_url`, a
NUL byte followed by `url=http://10.0.0.5:9000`, contains `url=`, and yet the
request is answered with 400 and the restart is not invoked. -/
theorem restart_on_marker_counterexample :
    Authorized (mkReq (some expected_auth) (0 :: bytes "url=http://10.0.0.5:9000")) ∧
    bytes "url=" <:+:
      received (mkReq (some expected_auth) (0 :: bytes "url=http://10.0.0.5:9000")) ∧
    ∃ s', Route.set_url.handler
        (mkReq (some expected_auth) (0 :: bytes "url=http://10.0.0.5:9000"))
        (fresh stream_url_init) = some (s', .returned .ESP_FAIL) ∧
      responses s'.effects = [⟨400, "text/html", [], bytes "Invalid URL format"⟩] ∧
      Effect.esp_restart ∉ s'.effects := by
  refine ⟨mkReq_authorized _, by decide, ?_⟩
  obtain ⟨s', h1, _, h3⟩ := set_url_rejected
    (mkReq (some expected_auth) (0 :: bytes "url=http://10.0.0.5:9000")) stream_url_init
    (mkReq_recvBounded _ _) (by decide) (by decide)
  refine ⟨s', (set_url_authenticated_eq _ _ (mkReq_authorized _)).trans h1, ?_, ?_⟩
  · rw [h3]; rfl
  · rw [h3]; simp

/-! ## C10: the buffers -/

theorem basic_auth_stream_url (req : httpd_req_t) (s : State) :
    (basic_auth req s).1.stream_url = s.stream_url := by
  unfold basic_auth
  simp only []
  split
  · rfl
  · split
    · rfl
    · rfl

set_option maxRecDepth 20000 in
theorem set_stream_url_handler_stream_url (req : httpd_req_t) (s s' : State) (r : Ret)
    (h : set_stream_url_handler req s = some (s', r)) :
    s'.stream_url = s.stream_url ∨
      ∃ arg, s'.stream_url = snprintf_s s.stream_url MAX_URL_LENGTH arg := by
  unfold set_stream_url_handler at h
  simp only [] at h
  split at h
  · obtain ⟨rfl, _⟩ := Prod.mk.inj (Option.some.inj h)
    left; rfl
  · split at h
    · split at h
      · obtain ⟨rfl, _⟩ := Prod.mk.inj (Option.some.inj h)
        right; exact ⟨_, rfl⟩
      · obtain ⟨rfl, _⟩ := Prod.mk.inj (Option.some.inj h)
        left; rfl
    · exact absurd h (by simp)

/-- Whatever the request, a handler leaves `stream_url` as it was or as
`snprintf` into its `MAX_URL_LENGTH` bytes has written it. -/
theorem handler_stream_url (route : Route) (req : httpd_req_t) (s s' : State) (r : Ret)
    (h : route.handler req s = some (s', r)) :
    s'.stream_url = s.stream_url ∨
      ∃ arg, s'.stream_url = snprintf_s s.stream_url MAX_URL_LENGTH arg := by
  have hba := basic_auth_stream_url req s
  cases route
  · change authenticated_handler req admin_panel_handler s = _ at h
    unfold authenticated_handler at h
    simp only [] at h
    split at h
    · obtain ⟨rfl, _⟩ := Prod.mk.inj (Option.some.inj h)
      left; exact hba
    · obtain ⟨rfl, _⟩ := Prod.mk.inj (Option.some.inj h)
      left; exact hba
  · change authenticated_handler req set_stream_url_handler s = _ at h
    unfold authenticated_handler at h
    simp only [] at h
    split at h
    · rw [← hba]
      exact set_stream_url_handler_stream_url req _ s' r h
    · obtain ⟨rfl, _⟩ := Prod.mk.inj (Option.some.inj h)
      left; exact hba
  · change authenticated_handler req restart_handler s = _ at h
    unfold authenticated_handler at h
    simp only [] at h
    split at h
    · obtain ⟨rfl, _⟩ := Prod.mk.inj (Option.some.inj h)
      left; exact hba
    · obtain ⟨rfl, _⟩ := Prod.mk.inj (Option.some.inj h)
      left; exact hba

/-- In a buffer whose C string is shorter than the buffer, the byte after the C
string is the terminator. -/
theorem cstr_terminator (buf : List Nat) (h : (cstr buf).length < buf.length) :
    buf[(cstr buf).length]? = some 0 := by
  induction buf with
  | nil => simp at h
  | cons a t ih =>
    by_cases ha : a = 0
    · subst ha; simp [cstr_cons_zero]
    · rw [cstr_cons_ne ha] at h ⊢
      simp only [List.length_cons, Nat.add_lt_add_iff_right] at h
      simp only [List.length_cons, List.getElem?_cons_succ]
      exact ih h

theorem httpd_req_recv_length (req : httpd_req_t) (buf : List Nat) (n : Nat) :
    (httpd_req_recv req buf n).2.length = buf.length :=
  store_length _ _

theorem httpd_req_recv_ret (req : httpd_req_t) (buf : List Nat) (n : Nat) :
    (httpd_req_recv req buf n).1 = (req.recv n).1 := rfl

/-- C10: every value of `stream_url` reachable from its initialiser
`http://192.168.9.184:8001` by requests on the three routes fills the 256-byte
buffer, holds a NUL byte, and its C string has at most 255 bytes and is followed by
the terminator inside the buffer. When `httpd_req_recv` returns at most the length
it was asked for, the receive buffer of `set_stream_url_handler` has its 256
bytes, the index `ret` of the terminator write is below 256, and the handler
ends without a write outside a buffer. -/
theorem stream_url_stays_terminated (u : List Nat) (req : httpd_req_t) (s : State)
    (hr : Reachable u) (hb : RecvBounded req) :
    (cstr stream_url_init = bytes "http://192.168.9.184:8001" ∧
      u.length = 256 ∧ 0 ∈ u ∧ (cstr u).length ≤ 255 ∧
      u[(cstr u).length]? = some 0) ∧
    ((httpd_req_recv req (zeros MAX_URL_LENGTH)
        (MIN req.content_len (MAX_URL_LENGTH - 1))).2.length = 256 ∧
      (httpd_req_recv req (zeros MAX_URL_LENGTH)
        (MIN req.content_len (MAX_URL_LENGTH - 1))).1 < 256 ∧
      ∃ out, set_stream_url_handler req s = some out) := by
  have hM : MAX_URL_LENGTH = 256 := rfl
  have inv : u.length = MAX_URL_LENGTH ∧ (cstr u).length < MAX_URL_LENGTH := by
    induction hr with
    | boot =>
      refine ⟨stream_url_init_length, ?_⟩
      rw [cstr_stream_url_init]
      decide
    | request u0 route req0 s0 r0 _ hrun ih =>
      rcases handler_stream_url route req0 (fresh u0) s0 r0 hrun with h | ⟨arg, h⟩
      · rw [h]; exact ih
      · rw [h]
        exact ⟨(snprintf_length _ _ _).trans ih.1,
          snprintf_terminated _ _ _ ih.1 (by rw [hM]; omega)⟩
  obtain ⟨i1, i2⟩ := inv
  have hlt : (cstr u).length < u.length := by rw [i1]; exact i2
  refine ⟨⟨cstr_stream_url_init, by rw [i1, hM], nul_mem_of_cstr_lt u hlt,
    by rw [hM] at i2; omega, cstr_terminator u hlt⟩, ?_, ?_, ?_⟩
  · rw [httpd_req_recv_length, zeros_length, hM]
  · have hlt256 : (req.recv (MIN req.content_len (MAX_URL_LENGTH - 1))).1.toNat < 256 :=
      ret_lt req hb
    rw [httpd_req_recv_ret]
    omega
  · by_cases hpos : 0 < (req.recv (MIN req.content_len (MAX_URL_LENGTH - 1))).1
    · cases hs : strstr (cstr (received req)) (bytes "url=") with
      | none => exact ⟨_, set_url_no_marker req s hb hpos hs⟩
      | some off => exact ⟨_, set_url_marker req s hb hpos off hs⟩
    · exact ⟨_, set_url_recv_failed req s (not_lt.mp hpos)⟩

/-- C10 at the initial value and a request with a body of 300 bytes. -/
theorem stream_url_stays_terminated_witness :
    Reachable stream_url_init ∧
    RecvBounded (mkReq (some expected_auth) (List.replicate 300 97)) ∧
    (stream_url_init.length = 256 ∧ 0 ∈ stream_url_init ∧
      (cstr stream_url_init).length ≤ 255) ∧
    ∃ out, set_stream_url_handler (mkReq (some expected_auth) (List.replicate 300 97))
      (fresh stream_url_init) = some out :=
  have h := stream_url_stays_terminated stream_url_init
    (mkReq (some expected_auth) (List.replicate 300 97)) (fresh stream_url_init)
    Reachable.boot (mkReq_recvBounded _ _)
  ⟨Reachable.boot, mkReq_recvBounded _ _, ⟨h.1.2.1, h.1.2.2.1, h.1.2.2.2.1⟩, h.2.2.2⟩

end WebUI
